import Mathlib

/-!
# TinyTest — shallow embedding and verification

This file embeds the core of the TinyTest C++ test harness
(`src/tinytest.h`, `src/tinytest.cpp`) in Lean 4 and proves the
specification claims about it.

Modelling conventions:
* `uint32_t` counters are `Nat` reduced modulo `2^32` (`u32`) at every
  mutation, matching unsigned wraparound.
* `std::vector<std::string>` message logs are `List String`.
* A setup/teardown hook (`std::function<void()>`) is modelled for suite
  execution as a `HookSpec`: an identity (so invocations can be traced)
  plus whether invoking it throws.  For `Coalesce`, where only the
  sequencing of side effects matters, a hook is a state transformer
  `σ → σ`.
* The function under test may throw; its invocation boundary returns a
  `FutResult`: either a value or a thrown payload classified exactly as
  the four catch clauses of `ExecuteSuite` classify it.
* Observable actions (hook invocations, invocations of the function
  under test, comparator evaluations) are recorded in an event trace.
* Exceptions escaping `ExecuteSuite` (only hooks can do that) appear as
  `Except.error` carrying the identity of the throwing hook.
* The pretty printer (`CPPUtils::PrettyPrint`, an external collaborator)
  is an opaque parameter `pp : ρ → String`.
-/

namespace TinyTest

/-- `uint32_t` arithmetic: values wrap modulo `2^32`. -/
def u32 (n : Nat) : Nat := n % 4294967296

/-- Embedding of `class TestResults` (src/tinytest.cpp lines 38-173):
counters plus the three message logs. -/
structure TestResults where
  error_messages_ : List String
  errors_ : Nat
  failed_ : Nat
  failure_messages_ : List String
  passed_ : Nat
  skip_messages_ : List String
  skipped_ : Nat
  total_ : Nat
  deriving Repr, DecidableEq

/-- `TestResults::TestResults()` — the default constructor: all counters
zero, all message logs empty. -/
def TestResults.empty : TestResults :=
  { error_messages_ := [], errors_ := 0, failed_ := 0, failure_messages_ := []
    passed_ := 0, skip_messages_ := [], skipped_ := 0, total_ := 0 }

/-- `TestResults::Error()`: increments `errors_` only. -/
def TestResults.Error (r : TestResults) : TestResults :=
  { r with errors_ := u32 (r.errors_ + 1) }

/-- `TestResults::Error(string message)`: increments `errors_` and appends
the message to `error_messages_`. -/
def TestResults.ErrorMsg (r : TestResults) (message : String) : TestResults :=
  { r with errors_ := u32 (r.errors_ + 1)
           error_messages_ := r.error_messages_ ++ [message] }

/-- `TestResults::Fail()`: increments `total_` and `failed_`. -/
def TestResults.Fail (r : TestResults) : TestResults :=
  { r with total_ := u32 (r.total_ + 1), failed_ := u32 (r.failed_ + 1) }

/-- `TestResults::Fail(const string&)`: increments `total_` and `failed_`
and appends the message to `failure_messages_`. -/
def TestResults.FailMsg (r : TestResults) (message : String) : TestResults :=
  { r with total_ := u32 (r.total_ + 1), failed_ := u32 (r.failed_ + 1)
           failure_messages_ := r.failure_messages_ ++ [message] }

/-- `TestResults::Pass()`: increments `total_` and `passed_`. -/
def TestResults.Pass (r : TestResults) : TestResults :=
  { r with total_ := u32 (r.total_ + 1), passed_ := u32 (r.passed_ + 1) }

/-- `TestResults::Skip()`: increments `total_` and `skipped_`. -/
def TestResults.Skip (r : TestResults) : TestResults :=
  { r with total_ := u32 (r.total_ + 1), skipped_ := u32 (r.skipped_ + 1) }

/-- `TestResults::Skip(const string&)`: increments `total_` and `skipped_`
and appends the message to `skip_messages_`. -/
def TestResults.SkipMsg (r : TestResults) (message : String) : TestResults :=
  { r with total_ := u32 (r.total_ + 1), skipped_ := u32 (r.skipped_ + 1)
           skip_messages_ := r.skip_messages_ ++ [message] }

/-- `TestResults::operator+` (src/tinytest.cpp lines 142-161): builds a new
`TestResults` by concatenating each message log self-then-other and summing
each counter. -/
def TestResults.add (r other : TestResults) : TestResults :=
  { error_messages_ := r.error_messages_ ++ other.error_messages_
    errors_ := u32 (r.errors_ + other.errors_)
    failed_ := u32 (r.failed_ + other.failed_)
    failure_messages_ := r.failure_messages_ ++ other.failure_messages_
    passed_ := u32 (r.passed_ + other.passed_)
    skip_messages_ := r.skip_messages_ ++ other.skip_messages_
    skipped_ := u32 (r.skipped_ + other.skipped_)
    total_ := u32 (r.total_ + other.total_) }

/-- `TestResults::operator+=` (src/tinytest.cpp lines 163-173): in place,
appends the other's message logs and adds the other's counters. -/
def TestResults.addAssign (r other : TestResults) : TestResults :=
  { r with
    error_messages_ := r.error_messages_ ++ other.error_messages_
    errors_ := u32 (r.errors_ + other.errors_)
    failed_ := u32 (r.failed_ + other.failed_)
    failure_messages_ := r.failure_messages_ ++ other.failure_messages_
    passed_ := u32 (r.passed_ + other.passed_)
    skip_messages_ := r.skip_messages_ ++ other.skip_messages_
    skipped_ := u32 (r.skipped_ + other.skipped_)
    total_ := u32 (r.total_ + other.total_) }

/-- The accumulators reachable from the empty accumulator through the
public mutating operations and the two combine operators. -/
inductive Reachable : TestResults → Prop where
  | empty : Reachable TestResults.empty
  | error {r} : Reachable r → Reachable r.Error
  | errorMsg {r} (m : String) : Reachable r → Reachable (r.ErrorMsg m)
  | fail {r} : Reachable r → Reachable r.Fail
  | failMsg {r} (m : String) : Reachable r → Reachable (r.FailMsg m)
  | pass {r} : Reachable r → Reachable r.Pass
  | skip {r} : Reachable r → Reachable r.Skip
  | skipMsg {r} (m : String) : Reachable r → Reachable (r.SkipMsg m)
  | add {a b} : Reachable a → Reachable b → Reachable (a.add b)
  | addAssign {a b} : Reachable a → Reachable b → Reachable (a.addAssign b)

/-- Well-formedness of an accumulator as a C++ value: every `uint32_t`
field is below `2^32`. -/
def TestResults.wf (r : TestResults) : Prop :=
  r.errors_ < 4294967296 ∧ r.failed_ < 4294967296 ∧ r.passed_ < 4294967296 ∧
    r.skipped_ < 4294967296 ∧ r.total_ < 4294967296

instance (r : TestResults) : Decidable r.wf := by
  unfold TestResults.wf; infer_instance

/-- The payload thrown by the function under test, as discriminated by the
four catch clauses of `ExecuteSuite` (src/tinytest.h lines 522-543). -/
inductive Thrown where
  | exc (what : String)
  | str (message : String)
  | cstr (message : String)
  | other
  deriving Repr, DecidableEq

/-- The classified error text each catch clause builds into its
`ostringstream` (src/tinytest.h lines 522-543). -/
def classifyThrown : Thrown → String
  | Thrown.exc what => "Caught exception \"" ++ what ++ "\"."
  | Thrown.str message => "Caught string \"" ++ message ++ "\"."
  | Thrown.cstr message => "Caught c-string \"" ++ message ++ "\"."
  | Thrown.other => "Caught something that is neither an std::exception nor an std::string."

/-- Outcome of invoking the function under test with one case's inputs:
a returned value, or a thrown payload. -/
inductive FutResult (ρ : Type) where
  | ok (v : ρ)
  | threw (t : Thrown)
  deriving Repr, DecidableEq

/-- A setup/teardown hook as `ExecuteSuite` observes it: an identity used
for tracing its invocations, and whether invoking it throws (hook throws
are never caught by `ExecuteSuite`). -/
structure HookSpec where
  id : Nat
  throws : Bool
  deriving Repr, DecidableEq

/-- Observable actions of a suite run: a hook invocation, an invocation of
the function under test, and an evaluation of the resolved comparator. -/
inductive Event where
  | hookCall (id : Nat)
  | futCall
  | compareCall
  deriving Repr, DecidableEq

/-- Invoking an optional hook: emits its trace and, when it throws,
reports the throwing hook's identity. -/
def runOptHook : Option HookSpec → List Event × Option Nat
  | none => ([], none)
  | some h => ([Event.hookCall h.id], if h.throws then some h.id else none)

/-- Embedding of `TestTuple` (src/tinytest.h lines 86-107), named by its
documented components.  `ι` stands for `std::tuple<TInputParams...>`. -/
structure TestTuple (ρ ι : Type) where
  test_name : String
  expected_output : ρ
  input_params : ι
  test_compare_function : Option (ρ → ρ → Bool)
  test_setup_function : Option HookSpec
  test_teardown_function : Option HookSpec
  is_enabled : Bool

/-- `SkipTest` (src/tinytest.cpp lines 227-239): records a skip with the
qualified test label, appending `" because <reason>"` when a reason is
given. -/
def SkipTest (results : TestResults) (suite_label test_label : String)
    (reason : Option String) : TestResults :=
  let qualified_test_label := suite_label ++ "::" ++ test_label
  results.SkipMsg (qualified_test_label ++
    (match reason with
     | some r => " because " ++ r
     | none => ""))

/-- One iteration of the `for_each` body of `ExecuteSuite`
(src/tinytest.h lines 492-563): extract the tuple, resolve the comparator
by priority, skip a disabled case, otherwise run `before_each`, the
function under test inside its catch boundary, the comparison, and
`after_each`.  Returns the events of this case and either the updated
accumulator or the identity of a throwing hook. -/
def execCase {ρ ι : Type} [Inhabited ρ] [BEq ρ] (pp : ρ → String)
    (suite_label : String) (function_to_test : ι → FutResult ρ)
    (suite_Compare : Option (ρ → ρ → Bool)) (results : TestResults)
    (test_data : TestTuple ρ ι) : List Event × Except Nat TestResults :=
  let test_label := test_data.test_name
  let qualified_test_label := suite_label ++ "::" ++ test_label
  let Compare_function : ρ → ρ → Bool :=
    match test_data.test_compare_function with
    | some f => f
    | none =>
      match suite_Compare with
      | some f => f
      | none => fun l r => l == r
  if !test_data.is_enabled then
    ([], Except.ok (SkipTest results suite_label test_label none))
  else
    match runOptHook test_data.test_setup_function with
    | (tr1, some e) => (tr1, Except.error e)
    | (tr1, none) =>
      let step :=
        match function_to_test test_data.input_params with
        | FutResult.ok v => (results, v)
        | FutResult.threw t =>
          (results.ErrorMsg (qualified_test_label ++ " " ++ classifyThrown t),
            (default : ρ))
      let results := step.1
      let actual := step.2
      let results :=
        if Compare_function test_data.expected_output actual then results.Pass
        else results.FailMsg (qualified_test_label ++ " expected: " ++
          pp test_data.expected_output ++ ", actual: " ++ pp actual)
      match runOptHook test_data.test_teardown_function with
      | (tr2, some e) => (tr1 ++ [Event.futCall, Event.compareCall] ++ tr2, Except.error e)
      | (tr2, none) => (tr1 ++ [Event.futCall, Event.compareCall] ++ tr2, Except.ok results)

/-- The `for_each` loop of `ExecuteSuite` over the case list: runs cases in
order, threading the accumulator; an uncaught hook throw stops the loop. -/
def execCases {ρ ι : Type} [Inhabited ρ] [BEq ρ] (pp : ρ → String)
    (suite_label : String) (function_to_test : ι → FutResult ρ)
    (suite_Compare : Option (ρ → ρ → Bool)) :
    TestResults → List (TestTuple ρ ι) → List Event × Except Nat TestResults
  | results, [] => ([], Except.ok results)
  | results, test_data :: rest =>
    match execCase pp suite_label function_to_test suite_Compare results test_data with
    | (tr, Except.ok r) =>
      let out := execCases pp suite_label function_to_test suite_Compare r rest
      (tr ++ out.1, out.2)
    | (tr, Except.error e) => (tr, Except.error e)

/-- Embedding of `ExecuteSuite` (src/tinytest.h lines 460-571): the
disabled-suite check, the empty-suite check, `before_all`, the case loop,
and `after_all`, in the source's order.  The result is the full event
trace paired with either the accumulated `TestResults` or the identity of
the hook whose uncaught throw aborted the run. -/
def ExecuteSuite {ρ ι : Type} [Inhabited ρ] [BEq ρ] (pp : ρ → String)
    (suite_label : String) (function_to_test : ι → FutResult ρ)
    (tests : List (TestTuple ρ ι)) (suite_Compare : Option (ρ → ρ → Bool))
    (before_all after_all : Option HookSpec) (is_enabled : Bool) :
    List Event × Except Nat TestResults :=
  if !is_enabled then
    ([], Except.ok (tests.foldl
      (fun results test =>
        SkipTest results suite_label test.test_name (some "the suite is disabled."))
      TestResults.empty))
  else if tests.length == 0 then
    ([], Except.ok TestResults.empty)
  else
    match runOptHook before_all with
    | (trB, some e) => (trB, Except.error e)
    | (trB, none) =>
      match execCases pp suite_label function_to_test suite_Compare TestResults.empty tests with
      | (trC, Except.error e) => (trB ++ trC, Except.error e)
      | (trC, Except.ok results) =>
        match runOptHook after_all with
        | (trA, some e) => (trB ++ trC ++ trA, Except.error e)
        | (trA, none) => (trB ++ trC ++ trA, Except.ok results)

/-- `Coalesce` (src/tinytest.cpp lines 210-224), over hooks modelled as
state transformers so the order of side effects is observable: if both are
present the result invokes the first then the second; if exactly one is
present it is returned unchanged; if both are absent, absent. -/
def Coalesce {σ : Type} (first second : Option (σ → σ)) : Option (σ → σ) :=
  match first with
  | some f =>
    match second with
    | some g => some (fun s => g (f s))
    | none => first
  | none => second

/-- A zero-argument callable as `InterceptCout` observes it: the text it
writes to `std::cout` while running, and whether it throws. -/
structure Callable where
  output : List String
  throws : Bool
  deriving Repr, DecidableEq

/-- Embedding of `InterceptCout` (src/tinytest.h lines 422-436).  The
global `std::cout.rdbuf()` pointer is modelled as an explicit `Nat` state
(`cout_buf`), and `os_buf` is the buffer of the local `ostringstream`.
Returns the call's outcome (captured text, or the propagated throw) paired
with the final `rdbuf` state.  As in the source, the restore
`cout.rdbuf(saved_buffer)` runs only on the normal path: a throw from the
callable propagates before it. -/
def InterceptCout (os_buf : Nat) (function_to_execute : Callable)
    (cout_buf : Nat) : Except Unit String × Nat :=
  let saved_buffer := cout_buf
  let redirected := os_buf
  if function_to_execute.throws then
    (Except.error (), redirected)
  else
    (Except.ok (String.join function_to_execute.output), saved_buffer)

/-- The skip message the disabled-suite path records for one case. -/
def disabledSkipMessage (suite_label test_name : String) : String :=
  suite_label ++ "::" ++ test_name ++ " because the suite is disabled."

/-- The comparison-resolution policy in the spec's words: the case-level
comparator override if present, else the suite-level comparator if
present, else structural equality of expected vs actual.  Kept separate
from `execCase`'s transcription so the source's nested conditional can be
proved to refine this policy. -/
def effectiveCompareSpec {ρ : Type} [BEq ρ]
    (test_compare_function suite_Compare : Option (ρ → ρ → Bool)) : ρ → ρ → Bool :=
  match test_compare_function, suite_Compare with
  | some f, _ => f
  | none, some f => f
  | none, none => fun expected actual => expected == actual

/-- Whether invoking an optional hook completes without throwing (an
absent hook is trivially fine). -/
def hookOk : Option HookSpec → Bool
  | none => true
  | some h => !h.throws

/-- The hook identities an optional hook can contribute to the trace. -/
def optHookIds : Option HookSpec → List Nat
  | none => []
  | some h => [h.id]

/-- The hook identities a single case can contribute to the trace. -/
def caseHookIds {ρ ι : Type} (c : TestTuple ρ ι) : List Nat :=
  optHookIds c.test_setup_function ++ optHookIds c.test_teardown_function

/-- The hook identities any case of the list can contribute. -/
def allCaseHookIds {ρ ι : Type} (tests : List (TestTuple ρ ι)) : List Nat :=
  (tests.map caseHookIds).flatten

/-- Whether running a case can complete without an uncaught hook throw:
a disabled case invokes no hooks; an enabled case invokes `before_each`
and `after_each` when present. -/
def caseHooksOk {ρ ι : Type} (c : TestTuple ρ ι) : Bool :=
  !c.is_enabled || (hookOk c.test_setup_function && hookOk c.test_teardown_function)

/-! ## Theorems -/

/-- C1: for every accumulator reachable from the empty one through
`Error`/`Fail`/`Pass`/`Skip` (with or without messages) and the two
combine operators, `total_ == failed_ + passed_ + skipped_` holds (the sum
taken in `uint32_t` arithmetic, i.e. modulo `2^32`, exactly as the C++
comparison would compute it); moreover `Error`/`Error(message)` increment
only `errors_` (and the error log) and never change `total_` nor any other
counter or log. -/
theorem results_total_invariant (r : TinyTest.TestResults) (h : TinyTest.Reachable r) :
    r.total_ = TinyTest.u32 (r.failed_ + r.passed_ + r.skipped_) ∧
    ∀ m : String,
      r.Error.total_ = r.total_ ∧ (r.ErrorMsg m).total_ = r.total_ ∧
      r.Error.errors_ = TinyTest.u32 (r.errors_ + 1) ∧
      (r.ErrorMsg m).errors_ = TinyTest.u32 (r.errors_ + 1) ∧
      r.Error.failed_ = r.failed_ ∧ r.Error.passed_ = r.passed_ ∧
      r.Error.skipped_ = r.skipped_ ∧
      r.Error.error_messages_ = r.error_messages_ ∧
      r.Error.failure_messages_ = r.failure_messages_ ∧
      r.Error.skip_messages_ = r.skip_messages_ ∧
      (r.ErrorMsg m).total_ = r.total_ := by
  refine ⟨?_, fun m => ⟨rfl, rfl, rfl, rfl, rfl, rfl, rfl, rfl, rfl, rfl, rfl⟩⟩
  induction h with
  | empty => rfl
  | error hr ih => simpa [TinyTest.TestResults.Error] using ih
  | errorMsg m hr ih => simpa [TinyTest.TestResults.ErrorMsg] using ih
  | fail hr ih =>
    simp only [TinyTest.TestResults.Fail, TinyTest.u32] at *; omega
  | failMsg m hr ih =>
    simp only [TinyTest.TestResults.FailMsg, TinyTest.u32] at *; omega
  | pass hr ih =>
    simp only [TinyTest.TestResults.Pass, TinyTest.u32] at *; omega
  | skip hr ih =>
    simp only [TinyTest.TestResults.Skip, TinyTest.u32] at *; omega
  | skipMsg m hr ih =>
    simp only [TinyTest.TestResults.SkipMsg, TinyTest.u32] at *; omega
  | add ha hb iha ihb =>
    simp only [TinyTest.TestResults.add, TinyTest.u32] at *; omega
  | addAssign ha hb iha ihb =>
    simp only [TinyTest.TestResults.addAssign, TinyTest.u32] at *; omega

/-- Witness for `results_total_invariant` at the concrete reachable
accumulator `empty.Pass.FailMsg "f" |>.Error`. -/
theorem results_total_invariant_witness :
    TinyTest.Reachable ((TinyTest.TestResults.empty.Pass.FailMsg "f").Error) ∧
    ((TinyTest.TestResults.empty.Pass.FailMsg "f").Error).total_ =
      TinyTest.u32 (((TinyTest.TestResults.empty.Pass.FailMsg "f").Error).failed_ +
        ((TinyTest.TestResults.empty.Pass.FailMsg "f").Error).passed_ +
        ((TinyTest.TestResults.empty.Pass.FailMsg "f").Error).skipped_) :=
  have hr : TinyTest.Reachable ((TinyTest.TestResults.empty.Pass.FailMsg "f").Error) :=
    TinyTest.Reachable.error (TinyTest.Reachable.failMsg "f"
      (TinyTest.Reachable.pass TinyTest.Reachable.empty))
  ⟨hr, (results_total_invariant _ hr).1⟩

/-- C4: both combine operators (`operator+` as `TestResults.add`,
`operator+=` as `TestResults.addAssign`) sum every counter in `uint32_t`
arithmetic and concatenate every message log in self-then-other order;
the two operators agree. -/
theorem combine_sums_counters_concats_messages (a b : TinyTest.TestResults) :
    (a.add b).errors_ = TinyTest.u32 (a.errors_ + b.errors_) ∧
    (a.add b).failed_ = TinyTest.u32 (a.failed_ + b.failed_) ∧
    (a.add b).passed_ = TinyTest.u32 (a.passed_ + b.passed_) ∧
    (a.add b).skipped_ = TinyTest.u32 (a.skipped_ + b.skipped_) ∧
    (a.add b).total_ = TinyTest.u32 (a.total_ + b.total_) ∧
    (a.add b).error_messages_ = a.error_messages_ ++ b.error_messages_ ∧
    (a.add b).failure_messages_ = a.failure_messages_ ++ b.failure_messages_ ∧
    (a.add b).skip_messages_ = a.skip_messages_ ++ b.skip_messages_ ∧
    a.addAssign b = a.add b :=
  ⟨rfl, rfl, rfl, rfl, rfl, rfl, rfl, rfl, rfl⟩

/-- C10: the default-constructed accumulator is a two-sided identity for
both combine operators, on every counter and every message log, for any
well-formed (`uint32_t`-ranged) accumulator. -/
theorem empty_is_combine_identity (a : TinyTest.TestResults) (h : a.wf) :
    a.add TinyTest.TestResults.empty = a ∧
    TinyTest.TestResults.empty.add a = a ∧
    a.addAssign TinyTest.TestResults.empty = a ∧
    TinyTest.TestResults.empty.addAssign a = a := by
  obtain ⟨he, hf, hp, hs, ht⟩ := h
  cases a with
  | mk em e f fm p sm s t =>
    simp only [TinyTest.TestResults.add, TinyTest.TestResults.addAssign,
      TinyTest.TestResults.empty, TinyTest.u32] at *
    refine ⟨?_, ?_, ?_, ?_⟩ <;> simp_all

/-- Witness for `empty_is_combine_identity` at a concrete accumulator. -/
theorem empty_is_combine_identity_witness :
    (TinyTest.TestResults.mk ["e"] 1 2 ["f"] 3 ["s"] 4 9).wf ∧
    (TinyTest.TestResults.mk ["e"] 1 2 ["f"] 3 ["s"] 4 9).add
        TinyTest.TestResults.empty =
      TinyTest.TestResults.mk ["e"] 1 2 ["f"] 3 ["s"] 4 9 :=
  ⟨by decide,
   (empty_is_combine_identity (TinyTest.TestResults.mk ["e"] 1 2 ["f"] 3 ["s"] 4 9)
      (by decide)).1⟩

/-- C7: `Coalesce` returns absent when both inputs are absent, returns a
lone present hook unchanged, and when both are present returns a hook
invoking the first then the second — the order being observable on an
effect log. -/
theorem coalesce_policy :
    (∀ σ : Type, TinyTest.Coalesce (none : Option (σ → σ)) none = none) ∧
    (∀ (σ : Type) (f : σ → σ), TinyTest.Coalesce (some f) none = some f) ∧
    (∀ (σ : Type) (g : σ → σ), TinyTest.Coalesce none (some g) = some g) ∧
    (∀ (σ : Type) (f g : σ → σ),
      TinyTest.Coalesce (some f) (some g) = some (fun s => g (f s))) ∧
    (TinyTest.Coalesce (some (fun l => l ++ ["Line 1"]))
        (some (fun l => l ++ ["Line 2"]))).map (fun h => h ([] : List String)) =
      some ["Line 1", "Line 2"] :=
  ⟨fun _ => rfl, fun _ _ => rfl, fun _ _ => rfl, fun _ _ _ => rfl, rfl⟩

/-- C8 counterexample: `InterceptCout` does NOT restore the original
destination on every exit path.  Concretely, with the original `rdbuf`
`0` and the in-memory buffer `1`, a throwing callable leaves the final
`rdbuf` at `1`, not the original `0`: the restore line is only reached on
the normal path. -/
theorem interceptCout_claim_false :
    (TinyTest.InterceptCout 1 { output := [], throws := true } 0).2 = 1 ∧
    (TinyTest.InterceptCout 1 { output := [], throws := true } 0).2 ≠ 0 :=
  ⟨rfl, by decide⟩

/-- C8 amended: `InterceptCout` runs the callable with `cout` redirected
to the in-memory buffer and, on normal completion, restores the original
destination and returns the captured text; but when the callable throws,
the exception propagates with `cout` still redirected — the original
destination is not restored on that path. -/
theorem interceptCout_redirect_restore (os_buf : Nat) (f : TinyTest.Callable)
    (cout_buf : Nat) :
    (f.throws = false →
      TinyTest.InterceptCout os_buf f cout_buf =
        (Except.ok (String.join f.output), cout_buf)) ∧
    (f.throws = true →
      TinyTest.InterceptCout os_buf f cout_buf = (Except.error (), os_buf)) := by
  constructor <;> intro h <;> simp [TinyTest.InterceptCout, h]

/-- Witness for `interceptCout_redirect_restore` at concrete buffers. -/
theorem interceptCout_redirect_restore_witness :
    TinyTest.InterceptCout 5 { output := [], throws := false } 3 =
      (Except.ok (String.join []), 3) ∧
    TinyTest.InterceptCout 5 { output := [], throws := true } 3 =
      (Except.error (), 5) :=
  ⟨(interceptCout_redirect_restore 5 { output := [], throws := false } 3).1 rfl,
   (interceptCout_redirect_restore 5 { output := [], throws := true } 3).2 rfl⟩

/-- C9: an enabled suite with an empty case list returns the empty trace
(no hooks, no invocation of the function under test, no comparator
evaluations) and the entirely-zero accumulator, with no per-case skip
records. -/
theorem executeSuite_empty_suite {ρ ι : Type} [Inhabited ρ] [BEq ρ]
    (pp : ρ → String) (suite_label : String)
    (function_to_test : ι → TinyTest.FutResult ρ)
    (suite_Compare : Option (ρ → ρ → Bool))
    (before_all after_all : Option TinyTest.HookSpec) :
    TinyTest.ExecuteSuite pp suite_label function_to_test []
        suite_Compare before_all after_all true =
      ([], Except.ok TinyTest.TestResults.empty) ∧
    TinyTest.TestResults.empty.total_ = 0 ∧
    TinyTest.TestResults.empty.errors_ = 0 ∧
    TinyTest.TestResults.empty.failed_ = 0 ∧
    TinyTest.TestResults.empty.passed_ = 0 ∧
    TinyTest.TestResults.empty.skipped_ = 0 ∧
    TinyTest.TestResults.empty.skip_messages_ = [] :=
  ⟨rfl, rfl, rfl, rfl, rfl, rfl, rfl⟩

/-- Folding `SkipTest … (some "the suite is disabled.")` over a case list:
characterises every field of the resulting accumulator. -/
theorem skipFold_fields {ρ ι : Type} (suite_label : String)
    (tests : List (TinyTest.TestTuple ρ ι)) (r : TinyTest.TestResults)
    (hs : r.skipped_ < 4294967296) (ht : r.total_ < 4294967296) :
    (tests.foldl
        (fun results test =>
          TinyTest.SkipTest results suite_label test.test_name
            (some "the suite is disabled."))
        r) =
      { error_messages_ := r.error_messages_, errors_ := r.errors_
        failed_ := r.failed_, failure_messages_ := r.failure_messages_
        passed_ := r.passed_
        skip_messages_ := r.skip_messages_ ++
          tests.map (fun t => disabledSkipMessage suite_label t.test_name)
        skipped_ := (r.skipped_ + tests.length) % 4294967296
        total_ := (r.total_ + tests.length) % 4294967296 } := by
  induction tests generalizing r with
  | nil =>
    simp only [List.foldl_nil, List.map_nil, List.append_nil, List.length_nil,
      Nat.add_zero, Nat.mod_eq_of_lt hs, Nat.mod_eq_of_lt ht]
  | cons t rest ih =>
    rw [List.foldl_cons,
      ih (TinyTest.SkipTest r suite_label t.test_name (some "the suite is disabled."))
        (by simp [TinyTest.SkipTest, TinyTest.TestResults.SkipMsg, TinyTest.u32]; omega)
        (by simp [TinyTest.SkipTest, TinyTest.TestResults.SkipMsg, TinyTest.u32]; omega)]
    simp [TinyTest.SkipTest, TinyTest.TestResults.SkipMsg, TinyTest.u32,
      disabledSkipMessage, TinyTest.TestResults.mk.injEq]
    omega

/-- C5: running a disabled suite records, in case order, one skip per case
with message `"<suite>::<case> because the suite is disabled."`, reports
`skipped == N` and `total == N` (as `uint32_t` values, i.e. modulo `2^32`;
below `2^32` cases they are exactly `N`), leaves every other counter and
log empty, and the event trace is empty: the function under test, every
hook, and every comparison are invoked zero times. -/
theorem executeSuite_disabled_suite {ρ ι : Type} [Inhabited ρ] [BEq ρ]
    (pp : ρ → String) (suite_label : String)
    (function_to_test : ι → TinyTest.FutResult ρ)
    (tests : List (TinyTest.TestTuple ρ ι))
    (suite_Compare : Option (ρ → ρ → Bool))
    (before_all after_all : Option TinyTest.HookSpec) :
    TinyTest.ExecuteSuite pp suite_label function_to_test tests
        suite_Compare before_all after_all false =
      ([], Except.ok
        { error_messages_ := [], errors_ := 0, failed_ := 0
          failure_messages_ := [], passed_ := 0
          skip_messages_ :=
            tests.map (fun t => disabledSkipMessage suite_label t.test_name)
          skipped_ := tests.length % 4294967296
          total_ := tests.length % 4294967296 }) ∧
    (tests.length < 4294967296 →
      ∃ R, TinyTest.ExecuteSuite pp suite_label function_to_test tests
            suite_Compare before_all after_all false = ([], Except.ok R) ∧
        R.skipped_ = tests.length ∧ R.total_ = tests.length) := by
  have hmain : TinyTest.ExecuteSuite pp suite_label function_to_test tests
      suite_Compare before_all after_all false =
      ([], Except.ok
        { error_messages_ := [], errors_ := 0, failed_ := 0
          failure_messages_ := [], passed_ := 0
          skip_messages_ :=
            tests.map (fun t => disabledSkipMessage suite_label t.test_name)
          skipped_ := tests.length % 4294967296
          total_ := tests.length % 4294967296 }) := by
    simp only [TinyTest.ExecuteSuite, Bool.not_false, if_pos rfl]
    rw [skipFold_fields suite_label tests TinyTest.TestResults.empty
      (by simp [TinyTest.TestResults.empty]) (by simp [TinyTest.TestResults.empty])]
    simp [TinyTest.TestResults.empty]
  refine ⟨hmain, fun hlen => ⟨_, hmain, ?_, ?_⟩⟩ <;>
    simpa using Nat.mod_eq_of_lt hlen

/-- Witness for `executeSuite_disabled_suite`'s bounded-length part at a
concrete two-case disabled suite. -/
theorem executeSuite_disabled_suite_witness :
    (2 : Nat) < 4294967296 ∧
    ∃ R, TinyTest.ExecuteSuite (fun _ : Bool => "b") "S"
          (fun _ : Unit => TinyTest.FutResult.ok true)
          [{ test_name := "a", expected_output := true, input_params := ()
             test_compare_function := none, test_setup_function := none
             test_teardown_function := none, is_enabled := true },
           { test_name := "b", expected_output := true, input_params := ()
             test_compare_function := none, test_setup_function := none
             test_teardown_function := none, is_enabled := true }]
          none none none false = ([], Except.ok R) ∧
      R.skipped_ = 2 ∧ R.total_ = 2 :=
  ⟨by decide,
   (executeSuite_disabled_suite (fun _ : Bool => "b") "S"
      (fun _ : Unit => TinyTest.FutResult.ok true)
      [{ test_name := "a", expected_output := true, input_params := ()
         test_compare_function := none, test_setup_function := none
         test_teardown_function := none, is_enabled := true },
       { test_name := "b", expected_output := true, input_params := ()
         test_compare_function := none, test_setup_function := none
         test_teardown_function := none, is_enabled := true }]
      none none none).2 (by decide)⟩

/-- An enabled case with absent case hooks runs the function under test
and classifies via the source's nested-conditional comparator resolution,
which agrees with `effectiveCompareSpec`. -/
theorem execCase_enabled_no_hooks {ρ ι : Type} [Inhabited ρ] [BEq ρ]
    (pp : ρ → String) (suite_label : String)
    (function_to_test : ι → TinyTest.FutResult ρ)
    (suite_Compare : Option (ρ → ρ → Bool)) (results : TinyTest.TestResults)
    (c : TinyTest.TestTuple ρ ι)
    (hen : c.is_enabled = true) (hbe : c.test_setup_function = none)
    (hae : c.test_teardown_function = none) :
    TinyTest.execCase pp suite_label function_to_test suite_Compare results c =
      ([TinyTest.Event.futCall, TinyTest.Event.compareCall],
        Except.ok
          (let step :=
            match function_to_test c.input_params with
            | TinyTest.FutResult.ok v => (results, v)
            | TinyTest.FutResult.threw t =>
              (results.ErrorMsg (suite_label ++ "::" ++ c.test_name ++ " " ++
                TinyTest.classifyThrown t), (default : ρ))
          if effectiveCompareSpec c.test_compare_function suite_Compare
              c.expected_output step.2
          then step.1.Pass
          else step.1.FailMsg (suite_label ++ "::" ++ c.test_name ++
            " expected: " ++ pp c.expected_output ++ ", actual: " ++ pp step.2))) := by
  cases hc : c.test_compare_function <;> cases hs : suite_Compare <;>
    simp [TinyTest.execCase, TinyTest.runOptHook, effectiveCompareSpec,
      hen, hbe, hae, hc, hs]

/-- C3: for an enabled case, `ExecuteSuite` resolves the effective
comparison by priority — case-level override, else suite-level comparator,
else structural equality — and the pass/fail verdict is exactly that
comparator's verdict on (expected, actual); in particular, when a
case-level override is present the suite-level comparator is irrelevant
to the verdict. -/
theorem executeSuite_compare_priority {ρ ι : Type} [Inhabited ρ] [BEq ρ]
    (pp : ρ → String) (suite_label : String)
    (function_to_test : ι → TinyTest.FutResult ρ)
    (suite_Compare : Option (ρ → ρ → Bool)) (c : TinyTest.TestTuple ρ ι) (v : ρ)
    (hen : c.is_enabled = true) (hbe : c.test_setup_function = none)
    (hae : c.test_teardown_function = none)
    (hfut : function_to_test c.input_params = TinyTest.FutResult.ok v) :
    TinyTest.ExecuteSuite pp suite_label function_to_test [c] suite_Compare
        none none true =
      ([TinyTest.Event.futCall, TinyTest.Event.compareCall],
        Except.ok
          (if effectiveCompareSpec c.test_compare_function suite_Compare
              c.expected_output v
           then TinyTest.TestResults.empty.Pass
           else TinyTest.TestResults.empty.FailMsg (suite_label ++ "::" ++
             c.test_name ++ " expected: " ++ pp c.expected_output ++
             ", actual: " ++ pp v))) ∧
    (∀ tc, c.test_compare_function = some tc →
      TinyTest.ExecuteSuite pp suite_label function_to_test [c] suite_Compare
          none none true =
        ([TinyTest.Event.futCall, TinyTest.Event.compareCall],
          Except.ok
            (if tc c.expected_output v
             then TinyTest.TestResults.empty.Pass
             else TinyTest.TestResults.empty.FailMsg (suite_label ++ "::" ++
               c.test_name ++ " expected: " ++ pp c.expected_output ++
               ", actual: " ++ pp v)))) := by
  have hcase := execCase_enabled_no_hooks pp suite_label function_to_test
    suite_Compare TinyTest.TestResults.empty c hen hbe hae
  rw [hfut] at hcase
  have hmain : TinyTest.ExecuteSuite pp suite_label function_to_test [c]
      suite_Compare none none true =
      ([TinyTest.Event.futCall, TinyTest.Event.compareCall],
        Except.ok
          (if effectiveCompareSpec c.test_compare_function suite_Compare
              c.expected_output v
           then TinyTest.TestResults.empty.Pass
           else TinyTest.TestResults.empty.FailMsg (suite_label ++ "::" ++
             c.test_name ++ " expected: " ++ pp c.expected_output ++
             ", actual: " ++ pp v))) := by
    simp only [TinyTest.ExecuteSuite, TinyTest.execCases, TinyTest.runOptHook,
      hcase]
    split <;> simp_all
  refine ⟨hmain, fun tc htc => ?_⟩
  rw [hmain]
  simp [effectiveCompareSpec, htc]

/-- Witness for `executeSuite_compare_priority`: a case-level comparator
that always passes wins over a suite-level comparator that always fails,
even though expected (`true`) and actual (`false`) differ. -/
theorem executeSuite_compare_priority_witness :
    TinyTest.ExecuteSuite (fun b : Bool => if b then "1" else "0") "Suite"
        (fun _ : Unit => TinyTest.FutResult.ok false)
        [{ test_name := "t", expected_output := true, input_params := ()
           test_compare_function := some (fun _ _ => true)
           test_setup_function := none, test_teardown_function := none
           is_enabled := true }]
        (some (fun _ _ => false)) none none true =
      ([TinyTest.Event.futCall, TinyTest.Event.compareCall],
        Except.ok TinyTest.TestResults.empty.Pass) := by
  have h := (executeSuite_compare_priority (fun b : Bool => if b then "1" else "0")
    "Suite" (fun _ : Unit => TinyTest.FutResult.ok false)
    (some (fun _ _ => false))
    { test_name := "t", expected_output := true, input_params := ()
      test_compare_function := some (fun _ _ => true)
      test_setup_function := none, test_teardown_function := none
      is_enabled := true }
    false rfl rfl rfl rfl).2 (fun _ _ => true) rfl
  simpa using h

/-- C2: when the function under test throws during an enabled case,
`ExecuteSuite` records an error whose message is the qualified test label
followed by the classified description (so the label prefixes it), leaves
`actual` at its default-constructed value, and still evaluates the
comparison of expected vs that defaulted actual — so the same case yields
both the error record and, when the comparison fails, a fail record; the
error record does not increment `total_`, which ends at exactly `1`. -/
theorem executeSuite_fut_throw_double_record {ρ ι : Type} [Inhabited ρ] [BEq ρ]
    (pp : ρ → String) (suite_label : String)
    (function_to_test : ι → TinyTest.FutResult ρ)
    (suite_Compare : Option (ρ → ρ → Bool)) (c : TinyTest.TestTuple ρ ι)
    (t : TinyTest.Thrown)
    (hen : c.is_enabled = true) (hbe : c.test_setup_function = none)
    (hae : c.test_teardown_function = none)
    (hfut : function_to_test c.input_params = TinyTest.FutResult.threw t) :
    ∃ R, TinyTest.ExecuteSuite pp suite_label function_to_test [c] suite_Compare
          none none true =
        ([TinyTest.Event.futCall, TinyTest.Event.compareCall], Except.ok R) ∧
      R = (if effectiveCompareSpec c.test_compare_function suite_Compare
            c.expected_output (default : ρ)
           then (TinyTest.TestResults.empty.ErrorMsg (suite_label ++ "::" ++
             c.test_name ++ " " ++ TinyTest.classifyThrown t)).Pass
           else (TinyTest.TestResults.empty.ErrorMsg (suite_label ++ "::" ++
             c.test_name ++ " " ++ TinyTest.classifyThrown t)).FailMsg
             (suite_label ++ "::" ++ c.test_name ++ " expected: " ++
               pp c.expected_output ++ ", actual: " ++ pp (default : ρ))) ∧
      R.errors_ = 1 ∧
      R.error_messages_ =
        [suite_label ++ "::" ++ c.test_name ++ " " ++ TinyTest.classifyThrown t] ∧
      R.total_ = 1 ∧
      (effectiveCompareSpec c.test_compare_function suite_Compare
          c.expected_output (default : ρ) = false →
        R.failed_ = 1 ∧
        R.failure_messages_ =
          [suite_label ++ "::" ++ c.test_name ++ " expected: " ++
            pp c.expected_output ++ ", actual: " ++ pp (default : ρ)]) := by
  have hcase := execCase_enabled_no_hooks pp suite_label function_to_test
    suite_Compare TinyTest.TestResults.empty c hen hbe hae
  rw [hfut] at hcase
  refine ⟨_, ?_, rfl, ?_, ?_, ?_, ?_⟩
  · simp only [TinyTest.ExecuteSuite, TinyTest.execCases, TinyTest.runOptHook,
      hcase]
    split <;> simp_all
  · split <;>
      simp [TinyTest.TestResults.ErrorMsg, TinyTest.TestResults.Pass,
        TinyTest.TestResults.FailMsg, TinyTest.TestResults.empty, TinyTest.u32]
  · split <;>
      simp [TinyTest.TestResults.ErrorMsg, TinyTest.TestResults.Pass,
        TinyTest.TestResults.FailMsg, TinyTest.TestResults.empty, TinyTest.u32]
  · split <;>
      simp [TinyTest.TestResults.ErrorMsg, TinyTest.TestResults.Pass,
        TinyTest.TestResults.FailMsg, TinyTest.TestResults.empty, TinyTest.u32]
  · intro hcmp
    rw [if_neg (by simp [hcmp])]
    simp [TinyTest.TestResults.ErrorMsg, TinyTest.TestResults.FailMsg,
      TinyTest.TestResults.empty, TinyTest.u32]

/-- Witness for `executeSuite_fut_throw_double_record`: a boolean case
expecting `true` whose function throws `std::exception`; actual defaults
to `false`, producing one error record and one fail record with
`total_ = 1`. -/
theorem executeSuite_fut_throw_double_record_witness :
    ∃ R, TinyTest.ExecuteSuite (fun b : Bool => if b then "1" else "0") "Suite"
          (fun _ : Unit => TinyTest.FutResult.threw (TinyTest.Thrown.exc "std::exception"))
          [{ test_name := "t", expected_output := true, input_params := ()
             test_compare_function := none, test_setup_function := none
             test_teardown_function := none, is_enabled := true }]
          none none none true =
        ([TinyTest.Event.futCall, TinyTest.Event.compareCall], Except.ok R) ∧
      R = (if effectiveCompareSpec
            (none : Option (Bool → Bool → Bool)) none true (default : Bool)
           then (TinyTest.TestResults.empty.ErrorMsg ("Suite" ++ "::" ++
             "t" ++ " " ++ TinyTest.classifyThrown (TinyTest.Thrown.exc "std::exception"))).Pass
           else (TinyTest.TestResults.empty.ErrorMsg ("Suite" ++ "::" ++
             "t" ++ " " ++ TinyTest.classifyThrown (TinyTest.Thrown.exc "std::exception"))).FailMsg
             ("Suite" ++ "::" ++ "t" ++ " expected: " ++
               (if (true : Bool) then "1" else "0") ++ ", actual: " ++
               (if (default : Bool) then "1" else "0"))) ∧
      R.errors_ = 1 ∧
      R.error_messages_ =
        ["Suite" ++ "::" ++ "t" ++ " " ++
          TinyTest.classifyThrown (TinyTest.Thrown.exc "std::exception")] ∧
      R.total_ = 1 ∧
      (effectiveCompareSpec (none : Option (Bool → Bool → Bool)) none true
          (default : Bool) = false →
        R.failed_ = 1 ∧
        R.failure_messages_ =
          ["Suite" ++ "::" ++ "t" ++ " expected: " ++
            (if (true : Bool) then "1" else "0") ++ ", actual: " ++
            (if (default : Bool) then "1" else "0")]) :=
  executeSuite_fut_throw_double_record (fun b : Bool => if b then "1" else "0")
    "Suite"
    (fun _ : Unit => TinyTest.FutResult.threw (TinyTest.Thrown.exc "std::exception"))
    none
    { test_name := "t", expected_output := true, input_params := ()
      test_compare_function := none, test_setup_function := none
      test_teardown_function := none, is_enabled := true }
    (TinyTest.Thrown.exc "std::exception") rfl rfl rfl rfl

/-- Any hook invocation appearing in one case's trace belongs to that
case's own hooks. -/
theorem execCase_trace_hook_ids {ρ ι : Type} [Inhabited ρ] [BEq ρ]
    (pp : ρ → String) (suite_label : String)
    (function_to_test : ι → TinyTest.FutResult ρ)
    (suite_Compare : Option (ρ → ρ → Bool)) (results : TinyTest.TestResults)
    (c : TinyTest.TestTuple ρ ι) (i : Nat)
    (hi : TinyTest.Event.hookCall i ∈
      (TinyTest.execCase pp suite_label function_to_test suite_Compare results c).1) :
    i ∈ caseHookIds c := by
  by_cases hen : c.is_enabled
  · cases hsu : c.test_setup_function with
    | none =>
      cases htd : c.test_teardown_function with
      | none =>
        simp_all [TinyTest.execCase, TinyTest.runOptHook, caseHookIds, optHookIds]
      | some h2 =>
        cases hth2 : h2.throws <;>
          simp_all [TinyTest.execCase, TinyTest.runOptHook, caseHookIds, optHookIds]
    | some h1 =>
      cases hth1 : h1.throws with
      | true =>
        simp_all [TinyTest.execCase, TinyTest.runOptHook, caseHookIds, optHookIds]
      | false =>
        cases htd : c.test_teardown_function with
        | none =>
          simp_all [TinyTest.execCase, TinyTest.runOptHook, caseHookIds, optHookIds]
        | some h2 =>
          cases hth2 : h2.throws <;>
            simp_all [TinyTest.execCase, TinyTest.runOptHook, caseHookIds, optHookIds]
  · simp_all [TinyTest.execCase, TinyTest.runOptHook, caseHookIds, optHookIds]

/-- A case none of whose invoked hooks throws completes with an updated
accumulator (no uncaught hook throw). -/
theorem execCase_hooks_ok {ρ ι : Type} [Inhabited ρ] [BEq ρ]
    (pp : ρ → String) (suite_label : String)
    (function_to_test : ι → TinyTest.FutResult ρ)
    (suite_Compare : Option (ρ → ρ → Bool)) (results : TinyTest.TestResults)
    (c : TinyTest.TestTuple ρ ι) (hok : caseHooksOk c = true) :
    ∃ r, (TinyTest.execCase pp suite_label function_to_test suite_Compare
      results c).2 = Except.ok r := by
  by_cases hen : c.is_enabled <;>
    cases hsu : c.test_setup_function <;>
    cases htd : c.test_teardown_function <;>
    simp_all [TinyTest.execCase, TinyTest.runOptHook, caseHooksOk, hookOk]

/-- Any hook invocation appearing in the case loop's trace belongs to some
case's hooks. -/
theorem execCases_trace_hook_ids {ρ ι : Type} [Inhabited ρ] [BEq ρ]
    (pp : ρ → String) (suite_label : String)
    (function_to_test : ι → TinyTest.FutResult ρ)
    (suite_Compare : Option (ρ → ρ → Bool))
    (tests : List (TinyTest.TestTuple ρ ι)) (results : TinyTest.TestResults)
    (i : Nat)
    (hi : TinyTest.Event.hookCall i ∈
      (TinyTest.execCases pp suite_label function_to_test suite_Compare
        results tests).1) :
    i ∈ allCaseHookIds tests := by
  induction tests generalizing results with
  | nil => simp [TinyTest.execCases] at hi
  | cons t rest ih =>
    rcases hE : TinyTest.execCase pp suite_label function_to_test suite_Compare
        results t with ⟨tr, res⟩
    have htr : ∀ j, TinyTest.Event.hookCall j ∈ tr → j ∈ caseHookIds t := by
      intro j hj
      exact execCase_trace_hook_ids pp suite_label function_to_test suite_Compare
        results t j (by rw [hE]; exact hj)
    cases res with
    | ok r =>
      rw [TinyTest.execCases, hE] at hi
      simp only [List.mem_append] at hi
      simp only [allCaseHookIds, List.map_cons, List.flatten_cons, List.mem_append]
      rcases hi with hi | hi
      · exact Or.inl (htr i hi)
      · exact Or.inr (ih r hi)
    | error e =>
      rw [TinyTest.execCases, hE] at hi
      simp only at hi
      simp only [allCaseHookIds, List.map_cons, List.flatten_cons, List.mem_append]
      exact Or.inl (htr i hi)

/-- When no enabled case's hook throws, the case loop completes with an
accumulator. -/
theorem execCases_hooks_ok {ρ ι : Type} [Inhabited ρ] [BEq ρ]
    (pp : ρ → String) (suite_label : String)
    (function_to_test : ι → TinyTest.FutResult ρ)
    (suite_Compare : Option (ρ → ρ → Bool))
    (tests : List (TinyTest.TestTuple ρ ι)) (results : TinyTest.TestResults)
    (hall : ∀ c ∈ tests, caseHooksOk c = true) :
    ∃ r, (TinyTest.execCases pp suite_label function_to_test suite_Compare
      results tests).2 = Except.ok r := by
  induction tests generalizing results with
  | nil => exact ⟨results, rfl⟩
  | cons t rest ih =>
    obtain ⟨r1, hr1⟩ := execCase_hooks_ok pp suite_label function_to_test
      suite_Compare results t (hall t (by simp))
    rcases hE : TinyTest.execCase pp suite_label function_to_test suite_Compare
        results t with ⟨tr, res⟩
    rw [hE] at hr1
    simp only at hr1
    subst hr1
    rw [TinyTest.execCases, hE]
    simpa using ih r1 (fun c hc => hall c (by simp [hc]))

/-- C6: `ExecuteSuite` never catches hook throws.  (i) A throwing
`before_all` aborts the whole run: the trace is its invocation alone — no
case runs and a present `after_all` is never invoked.  (ii) A throwing
`before_each` on the first case aborts that case and all remaining cases,
and `after_all` is never invoked.  (iii) The same for a throwing
`after_each` (the case's execution and comparison having already
happened).  (iv) When no invoked hook throws, the run completes and a
present `after_all` is invoked exactly once, after everything else: the
trace is some prefix — containing no invocation of `after_all` — followed
by exactly its invocation. -/
theorem executeSuite_hook_boundary {ρ ι : Type} [Inhabited ρ] [BEq ρ]
    (pp : ρ → String) (suite_label : String)
    (function_to_test : ι → TinyTest.FutResult ρ)
    (suite_Compare : Option (ρ → ρ → Bool)) :
    (∀ (tests : List (TinyTest.TestTuple ρ ι)) (aa : Option TinyTest.HookSpec)
      (b : TinyTest.HookSpec), tests ≠ [] → b.throws = true →
      TinyTest.ExecuteSuite pp suite_label function_to_test tests suite_Compare
          (some b) aa true =
        ([TinyTest.Event.hookCall b.id], Except.error b.id)) ∧
    (∀ (c : TinyTest.TestTuple ρ ι) (rest : List (TinyTest.TestTuple ρ ι))
      (aa : Option TinyTest.HookSpec) (h : TinyTest.HookSpec),
      c.is_enabled = true → c.test_setup_function = some h → h.throws = true →
      TinyTest.ExecuteSuite pp suite_label function_to_test (c :: rest)
          suite_Compare none aa true =
        ([TinyTest.Event.hookCall h.id], Except.error h.id)) ∧
    (∀ (c : TinyTest.TestTuple ρ ι) (rest : List (TinyTest.TestTuple ρ ι))
      (aa : Option TinyTest.HookSpec) (h : TinyTest.HookSpec),
      c.is_enabled = true → c.test_setup_function = none →
      c.test_teardown_function = some h → h.throws = true →
      TinyTest.ExecuteSuite pp suite_label function_to_test (c :: rest)
          suite_Compare none aa true =
        ([TinyTest.Event.futCall, TinyTest.Event.compareCall,
          TinyTest.Event.hookCall h.id], Except.error h.id)) ∧
    (∀ (tests : List (TinyTest.TestTuple ρ ι))
      (before_all : Option TinyTest.HookSpec) (a : TinyTest.HookSpec),
      tests ≠ [] → hookOk before_all = true →
      (∀ c ∈ tests, caseHooksOk c = true) → a.throws = false →
      a.id ∉ optHookIds before_all → a.id ∉ allCaseHookIds tests →
      ∃ tr0 r, TinyTest.ExecuteSuite pp suite_label function_to_test tests
          suite_Compare before_all (some a) true =
        (tr0 ++ [TinyTest.Event.hookCall a.id], Except.ok r) ∧
        TinyTest.Event.hookCall a.id ∉ tr0) := by
  refine ⟨?_, ?_, ?_, ?_⟩
  · intro tests aa b hne hb
    cases tests with
    | nil => exact absurd rfl hne
    | cons t rest => simp [TinyTest.ExecuteSuite, TinyTest.runOptHook, hb]
  · intro c rest aa h hen hsu hth
    simp [TinyTest.ExecuteSuite, TinyTest.execCases, TinyTest.execCase,
      TinyTest.runOptHook, hen, hsu, hth]
  · intro c rest aa h hen hsu htd hth
    simp [TinyTest.ExecuteSuite, TinyTest.execCases, TinyTest.execCase,
      TinyTest.runOptHook, hen, hsu, htd, hth]
  · intro tests before_all a hne hba hall hath hfr1 hfr2
    obtain ⟨r, hr⟩ := execCases_hooks_ok pp suite_label function_to_test
      suite_Compare tests TinyTest.TestResults.empty hall
    rcases hE : TinyTest.execCases pp suite_label function_to_test suite_Compare
        TinyTest.TestResults.empty tests with ⟨trC, res⟩
    rw [hE] at hr
    simp only at hr
    subst hr
    have htrC : TinyTest.Event.hookCall a.id ∉ trC := by
      intro hmem
      exact hfr2 (execCases_trace_hook_ids pp suite_label function_to_test
        suite_Compare tests TinyTest.TestResults.empty a.id (by rw [hE]; exact hmem))
    cases tests with
    | nil => exact absurd rfl hne
    | cons t rest =>
      cases hob : before_all with
      | none =>
        refine ⟨trC, r, ?_, htrC⟩
        simp [TinyTest.ExecuteSuite, TinyTest.runOptHook, hE, hath]
      | some hb =>
        have hbth : hb.throws = false := by
          simpa [hookOk, hob] using hba
        refine ⟨TinyTest.Event.hookCall hb.id :: trC, r, ?_, ?_⟩
        · simp [TinyTest.ExecuteSuite, TinyTest.runOptHook, hE, hath, hbth]
        · intro hmem
          rcases List.mem_cons.mp hmem with heq | hmem2
          · have : a.id = hb.id := by
              simpa using heq
            exact hfr1 (by simp [hob, optHookIds, this])
          · exact htrC hmem2

/-- Witness for `executeSuite_hook_boundary`: part (i) at a throwing
`before_all`, and part (iv) at a one-case suite whose hooks (ids 1, 2, 3)
all complete, with `after_all` id 9 invoked last and exactly once. -/
theorem executeSuite_hook_boundary_witness :
    TinyTest.ExecuteSuite (fun _ : Bool => "b") "S"
        (fun _ : Unit => TinyTest.FutResult.ok true)
        [{ test_name := "t", expected_output := true, input_params := ()
           test_compare_function := none
           test_setup_function := some { id := 2, throws := false }
           test_teardown_function := some { id := 3, throws := false }
           is_enabled := true }]
        none (some { id := 1, throws := true }) (some { id := 9, throws := false })
        true =
      ([TinyTest.Event.hookCall 1], Except.error 1) ∧
    ∃ tr0 r, TinyTest.ExecuteSuite (fun _ : Bool => "b") "S"
        (fun _ : Unit => TinyTest.FutResult.ok true)
        [{ test_name := "t", expected_output := true, input_params := ()
           test_compare_function := none
           test_setup_function := some { id := 2, throws := false }
           test_teardown_function := some { id := 3, throws := false }
           is_enabled := true }]
        none (some { id := 1, throws := false }) (some { id := 9, throws := false })
        true =
      (tr0 ++ [TinyTest.Event.hookCall 9], Except.ok r) ∧
      TinyTest.Event.hookCall 9 ∉ tr0 :=
  ⟨(executeSuite_hook_boundary (fun _ : Bool => "b") "S"
      (fun _ : Unit => TinyTest.FutResult.ok true) none).1
    [{ test_name := "t", expected_output := true, input_params := ()
       test_compare_function := none
       test_setup_function := some { id := 2, throws := false }
       test_teardown_function := some { id := 3, throws := false }
       is_enabled := true }]
    (some { id := 9, throws := false }) { id := 1, throws := true }
    (by simp) rfl,
   (executeSuite_hook_boundary (fun _ : Bool => "b") "S"
      (fun _ : Unit => TinyTest.FutResult.ok true) none).2.2.2
    [{ test_name := "t", expected_output := true, input_params := ()
       test_compare_function := none
       test_setup_function := some { id := 2, throws := false }
       test_teardown_function := some { id := 3, throws := false }
       is_enabled := true }]
    (some { id := 1, throws := false }) { id := 9, throws := false }
    (by simp) rfl (by decide) rfl (by decide) (by decide)⟩

end TinyTest
